import Mathlib

/-!
Verification of the document-processing core of the repository
(src/documents/models.py and src/documents/services.py).

The pipeline is embedded shallowly: the persisted `Document` row, the vector
index and the uploaded file form an explicit world state; the external,
failure-prone stage results (extraction, chunking, embedding, vector-store
connectivity, database saves) are supplied by an environment of `Except`
values, so that every execution of `process_document` that differs only in
where an exception is raised corresponds to one choice of environment.
-/

namespace DocQuery

/-- Processing status of a `Document` (src/documents/models.py,
`Document.ProcessingStatus`). -/
inductive ProcessingStatus
  | PENDING
  | PROCESSING
  | COMPLETED
  | FAILED
deriving DecidableEq, Repr

/-- A text chunk with optional page number (src/documents/models.py,
`ChunkWithPage`). -/
structure ChunkWithPage where
  text : String
  page_number : Option Nat
deriving DecidableEq, Repr

/-- Embedding vectors are abstract fixed sequences of numbers; the pipeline
never computes with their entries, so integer components suffice. -/
abbrev Vec := List Int

/-- The fields of the persisted `Document` row that the pipeline reads or
writes (src/documents/models.py, `Document`). Timestamps are modelled as
`Nat`; the JSON metadata map as an association list. `originalFilePath` is
the storage path held by the `original_file` FileField. -/
structure DocumentRecord where
  docId : String
  tenantId : String
  originalFilePath : String
  originalFilename : String
  pageCount : Nat
  status : ProcessingStatus
  metadata : List (String × String)
  errorMessage : Option String
  processedAt : Option Nat
deriving DecidableEq, Repr

/-- A record of the `DocumentChunk` collection as written by
`WeaviateService.add_document_chunks` (src/documents/services.py lines
293-300): the properties dict plus the supplied vector. -/
structure VectorRecord where
  tenant_id : String
  document_id : String
  content : String
  page_number : Option Nat
  original_filename : String
  vector : Vec
deriving DecidableEq, Repr

/-- The single record queued for one chunk by the loop body of
`add_document_chunks` (src/documents/services.py lines 292-300). -/
def chunkRecord (document : DocumentRecord) (c : ChunkWithPage) (v : Vec) : VectorRecord :=
  { tenant_id := document.tenantId
    document_id := document.docId
    content := c.text
    page_number := c.page_number
    original_filename := document.originalFilename
    vector := v }

/-- The records queued by `WeaviateService.add_document_chunks`
(src/documents/services.py lines 286-300): it iterates `enumerate(chunks)`
and indexes `embeddings[i]`, so an out-of-range index raises; the single
batched write is modelled as atomic (all records or an error). -/
def addChunkRecords (document : DocumentRecord) :
    List ChunkWithPage → List Vec → Except String (List VectorRecord)
  | [], _ => .ok []
  | _ :: _, [] => .error "list index out of range"
  | c :: cs, v :: vs =>
    (addChunkRecords document cs vs).map (fun rs => chunkRecord document c v :: rs)

/-- The pipeline stages of `process_document` that run between the two status
saves (src/documents/services.py lines 321-352). -/
inductive Stage
  | extraction
  | chunking
  | embedding
  | indexWrite
deriving DecidableEq, Repr

/-- Observable events of one `process_document` run: a successful `doc.save()`
persisting the given status, a pipeline stage starting to run, and the
storage-level deletion of the uploaded file. -/
inductive Event
  | persistStatus (s : ProcessingStatus)
  | stageRun (st : Stage)
  | deleteFile
deriving DecidableEq, Repr

/-- The `docling_doc.origin` attributes read at src/documents/services.py
lines 335-341. -/
structure OriginInfo where
  mimetype : String
  binaryHash : String
deriving DecidableEq, Repr

/-- Result of `ExtractionService.extract` plus the attributes of the returned
`DoclingDocument` that `process_document` reads: `pages` models
`len(getattr(docling_doc, "pages", []))`. -/
structure ExtractOut where
  markdownPath : String
  imageDirPath : String
  pages : Nat
  origin : Option OriginInfo
deriving DecidableEq, Repr

/-- The externally determined outcomes of one `process_document` run: each
fallible call of the try block either returns its value or raises (with the
`str(e)` text carried by `.error`). `fileSuffixLower` and `fileStatSize` are
the filesystem observations `file_path.suffix.lower()` and
`file_path.stat().st_size`; `now` is the value of `timezone.now()`. -/
structure PipelineEnv where
  saveProcessingRes : Except String Unit
  extractRes : Except String ExtractOut
  fileSuffixLower : String
  fileStatSize : Nat
  chunkRes : Except String (List ChunkWithPage)
  embedRes : Except String (List Vec)
  vectorConnectRes : Except String Unit
  saveCompletedRes : Except String Unit
  now : Nat
deriving Repr

/-- The `doc_metadata` dict assembled by `process_document`
(src/documents/services.py lines 327-341). -/
def buildDocMetadata (suffixLower : String) (statSize : Nat) (ex : ExtractOut) :
    List (String × String) :=
  let base := [("extension", suffixLower), ("source", "upload"),
    ("file_size", toString statSize), ("markdown_path", ex.markdownPath),
    ("image_dir_path", ex.imageDirPath)]
  match ex.origin with
  | some o => base ++ [("mimetype", o.mimetype), ("binary_hash", o.binaryHash)]
  | none => base

/-- The world visible to `process_document`: the persisted `Document` row, the
content of the vector index (records of this collection), and whether the
uploaded file is still present in storage. -/
structure WorldState where
  db : DocumentRecord
  index : List VectorRecord
  fileExists : Bool
deriving DecidableEq, Repr

/-- Outcome of one `process_document` invocation: the returned-or-raised
result, the final world, and the event trace. -/
structure RunResult where
  outcome : Except String Unit
  world : WorldState
  trace : List Event
deriving Repr

/-- The `except Exception as e` block of `process_document`
(src/documents/services.py lines 359-364): set FAILED and the message on the
in-memory row, persist it, delete the stored file with `save=False` (the row
is not written again, so `original_file` keeps its path), and re-raise. -/
def handleFailure (doc : DocumentRecord) (w : WorldState) (tr : List Event) (e : String) :
    RunResult :=
  let doc2 := { doc with status := .FAILED, errorMessage := some e }
  { outcome := .error e
    world := { w with db := doc2, fileExists := false }
    trace := tr ++ [.persistStatus .FAILED, .deleteFile] }

/-- `DocumentProcessingService.process_document` (src/documents/services.py
lines 314-364). The in-memory row `doc` is loaded from the database, mutated
field by field, and persisted by each successful `doc.save()`; any raise in
the try block transfers to `handleFailure` with the in-memory row as it then
stands. The vector-store connection scope of lines 349-352 is modelled
separately (`processVectorWrite`); here `vectorConnectRes` stands for the
connectivity of that write as a whole. -/
def processDocument (env : PipelineEnv) (w : WorldState) : RunResult :=
  let doc0 := w.db
  let doc := { doc0 with status := ProcessingStatus.PROCESSING }
  match env.saveProcessingRes with
  | .error e => handleFailure doc w [] e
  | .ok _ =>
    let w1 := { w with db := doc }
    let tr1 : List Event := [.persistStatus .PROCESSING, .stageRun .extraction]
    match env.extractRes with
    | .error e => handleFailure doc w1 tr1 e
    | .ok ex =>
      let docMeta := buildDocMetadata env.fileSuffixLower env.fileStatSize ex
      let tr2 := tr1 ++ [.stageRun .chunking]
      match env.chunkRes with
      | .error e => handleFailure doc w1 tr2 e
      | .ok chunks =>
        let tr3 := tr2 ++ [.stageRun .embedding]
        match env.embedRes with
        | .error e => handleFailure doc w1 tr3 e
        | .ok embeddings =>
          let tr4 := tr3 ++ [.stageRun .indexWrite]
          match env.vectorConnectRes with
          | .error e => handleFailure doc w1 tr4 e
          | .ok _ =>
            match addChunkRecords doc chunks embeddings with
            | .error e => handleFailure doc w1 tr4 e
            | .ok recs =>
              let w2 := { w1 with index := w1.index ++ recs }
              let doc2 := { doc with
                            status := ProcessingStatus.COMPLETED
                            processedAt := some env.now
                            pageCount := ex.pages
                            metadata := docMeta }
              match env.saveCompletedRes with
              | .error e => handleFailure doc2 w2 tr4 e
              | .ok _ =>
                { outcome := .ok ()
                  world := { w2 with db := doc2 }
                  trace := tr4 ++ [.persistStatus .COMPLETED] }

/-- The `except Exception as e` block of `process_document` with the
fallibility of its own `doc.save()` (src/documents/services.py line 362)
made explicit, at the same granularity as the saves of lines 319 and 358:
`saveRes` is the outcome of that save. When it raises `e2`, nothing is
persisted, the raise aborts the block before the file deletion of line 363
ever runs, and `e2` propagates to the caller instead of the original
exception. When it succeeds, the block behaves as `handleFailure`. -/
def handleFailureFallible (doc : DocumentRecord) (w : WorldState) (tr : List Event)
    (e : String) (saveRes : Except String Unit) : RunResult :=
  match saveRes with
  | .error e2 => { outcome := .error e2, world := w, trace := tr }
  | .ok _ =>
    let doc2 := { doc with status := .FAILED, errorMessage := some e }
    { outcome := .error e
      world := { w with db := doc2, fileExists := false }
      trace := tr ++ [.persistStatus .FAILED, .deleteFile] }

/-- `DocumentProcessingService.process_document` (src/documents/services.py
lines 314-364) refined so that the failure-path save of line 362 is fallible
too: `sf` is the outcome that save would have if the except block runs. On
`sf = .ok ()` this coincides with `processDocument`
(`processDocumentFallible_ok`). -/
def processDocumentFallible (env : PipelineEnv) (sf : Except String Unit)
    (w : WorldState) : RunResult :=
  let doc0 := w.db
  let doc := { doc0 with status := ProcessingStatus.PROCESSING }
  match env.saveProcessingRes with
  | .error e => handleFailureFallible doc w [] e sf
  | .ok _ =>
    let w1 := { w with db := doc }
    let tr1 : List Event := [.persistStatus .PROCESSING, .stageRun .extraction]
    match env.extractRes with
    | .error e => handleFailureFallible doc w1 tr1 e sf
    | .ok ex =>
      let docMeta := buildDocMetadata env.fileSuffixLower env.fileStatSize ex
      let tr2 := tr1 ++ [.stageRun .chunking]
      match env.chunkRes with
      | .error e => handleFailureFallible doc w1 tr2 e sf
      | .ok chunks =>
        let tr3 := tr2 ++ [.stageRun .embedding]
        match env.embedRes with
        | .error e => handleFailureFallible doc w1 tr3 e sf
        | .ok embeddings =>
          let tr4 := tr3 ++ [.stageRun .indexWrite]
          match env.vectorConnectRes with
          | .error e => handleFailureFallible doc w1 tr4 e sf
          | .ok _ =>
            match addChunkRecords doc chunks embeddings with
            | .error e => handleFailureFallible doc w1 tr4 e sf
            | .ok recs =>
              let w2 := { w1 with index := w1.index ++ recs }
              let doc2 := { doc with
                            status := ProcessingStatus.COMPLETED
                            processedAt := some env.now
                            pageCount := ex.pages
                            metadata := docMeta }
              match env.saveCompletedRes with
              | .error e => handleFailureFallible doc2 w2 tr4 e sf
              | .ok _ =>
                { outcome := .ok ()
                  world := { w2 with db := doc2 }
                  trace := tr4 ++ [.persistStatus .COMPLETED] }

/-- Connection-level events of the `WeaviateService` client. -/
inductive ConnEvent
  | openConn
  | closeConn
  | batchWrite (n : Nat)
deriving DecidableEq, Repr

/-- `WeaviateService._connect` (src/documents/services.py lines 242-256):
opens a client only when `self._client is None`. The state is `some ()` when
a client is open, `none` otherwise. -/
def wConnect : Option Unit → Option Unit × List ConnEvent
  | none => (some (), [.openConn])
  | some c => (some c, [])

/-- `WeaviateService._close` (src/documents/services.py lines 258-261):
closes the client and resets it to `None`, only when one is open. -/
def wClose : Option Unit → Option Unit × List ConnEvent
  | none => (none, [])
  | some _ => (none, [.closeConn])

/-- A `with self:` block on `WeaviateService` (src/documents/services.py
lines 263-268): `__enter__` calls `_connect`, the body runs (returning
normally or raising, modelled by `Except`), and `__exit__` calls `_close` on
every exit path. -/
def withScope {α : Type} (s : Option Unit)
    (body : Option Unit → Except String α × Option Unit × List ConnEvent) :
    Except String α × Option Unit × List ConnEvent :=
  let p1 := wConnect s
  let p2 := body p1.1
  let p3 := wClose p2.2.1
  (p2.1, p3.1, p1.2 ++ p2.2.2 ++ p3.2)

/-- `WeaviateService.add_document_chunks` (src/documents/services.py lines
286-300) with its own `with self:` scope; the body reads `self._client`
(requiring an open client) and performs the single batched write. -/
def addDocumentChunksConn (document : DocumentRecord) (chunks : List ChunkWithPage)
    (embeddings : List Vec) (s : Option Unit) :
    Except String (List VectorRecord) × Option Unit × List ConnEvent :=
  withScope s (fun s1 =>
    match s1 with
    | some _ => (addChunkRecords document chunks embeddings, s1, [.batchWrite chunks.length])
    | none => (.error "client is not connected", s1, []))

/-- The nested scope of `process_document` lines 349-352: `with
self.vector_store:` around `add_document_chunks`, which enters its own inner
scope on the same service object. -/
def processVectorWrite (document : DocumentRecord) (chunks : List ChunkWithPage)
    (embeddings : List Vec) (s : Option Unit) :
    Except String (List VectorRecord) × Option Unit × List ConnEvent :=
  withScope s (fun s1 => addDocumentChunksConn document chunks embeddings s1)

/-- The names bound at module level of src/documents/services.py: its imports
(lines 1-38) and its top-level class definitions. `Configure`, `Property` and
`DataType` are not among them; only `weaviate.classes as wvc` is imported. -/
def servicesModuleNames : List String :=
  ["os", "Path", "List", "urlparse", "dataclass", "settings", "timezone",
   "is_available", "Document", "torch", "weaviate", "wvc",
   "PyPdfiumDocumentBackend", "InputFormat", "HybridChunker",
   "AcceleratorDevice", "AcceleratorOptions", "PdfPipelineOptions",
   "OcrMacOptions", "TesseractCliOcrOptions", "SimplePipeline",
   "DocumentConverter", "PdfFormatOption", "WordFormatOption", "ImageRefMode",
   "DoclingDocument", "HuggingFaceTokenizer", "HuggingFaceEmbeddings",
   "AutoTokenizer", "OcrEngine", "DeviceType", "ChunkWithPage",
   "ExtractionService", "EmbeddingService", "WeaviateService",
   "DocumentProcessingService"]

/-- Python name resolution for the module scope of services.py. -/
def nameResolves (n : String) : Bool := servicesModuleNames.contains n

/-- A Weaviate collection as `_create_schema_if_not_exists` would configure
it: its property names and whether a built-in vectorizer is set. -/
structure CollectionSchema where
  fields : List String
  builtinVectorizer : Bool
deriving DecidableEq, Repr

/-- The property names the `properties=[...]` list of
`_create_schema_if_not_exists` declares (src/documents/services.py lines
277-283). -/
def documentChunkFields : List String :=
  ["tenant_id", "document_id", "content", "page_number", "original_filename"]

/-- `WeaviateService._create_schema_if_not_exists` (src/documents/services.py
lines 270-284), with Python name resolution made explicit: the create branch
evaluates `Configure.Vectorizer.none()` and then the `Property`/`DataType`
arguments, and an unbound name raises `NameError` at that point. The input is
the existing collection, if any; the output is the collection afterwards or
the raised error. -/
def createSchemaIfNotExists (store : Option CollectionSchema) :
    Except String (Option CollectionSchema) :=
  match store with
  | some s => .ok (some s)
  | none =>
    if nameResolves "Configure" then
      if nameResolves "Property" then
        if nameResolves "DataType" then
          .ok (some { fields := documentChunkFields, builtinVectorizer := false })
        else .error "NameError: name DataType is not defined"
      else .error "NameError: name Property is not defined"
    else .error "NameError: name Configure is not defined"

/-- A provenance entry of a docling doc item; `page_no` as read at
src/documents/services.py line 179. -/
structure Provenance where
  page_no : Nat
deriving DecidableEq, Repr

/-- A doc item of a chunk, carrying its provenance list. -/
structure DocItem where
  prov : List Provenance
deriving DecidableEq, Repr

/-- The `chunk.meta` object: its `doc_items` list. -/
structure ChunkMeta where
  doc_items : List DocItem
deriving DecidableEq, Repr

/-- A chunk as produced by the docling hybrid chunker, as far as
`chunk_docling_document` inspects it. -/
structure RawChunk where
  meta : ChunkMeta
deriving DecidableEq, Repr

/-- The page-number extraction loop of `EmbeddingService.chunk_docling_document`
(src/documents/services.py lines 174-180): `prov[0].page_no` of the first doc
item with nonempty provenance, else `None`. The outer
`if chunk.meta.doc_items:` guard of line 175 is subsumed by the empty-list
case. -/
def firstProvPage : List DocItem → Option Nat
  | [] => none
  | item :: rest =>
    match item.prov with
    | [] => firstProvPage rest
    | p :: _ => some p.page_no

/-- `EmbeddingService.chunk_docling_document` (src/documents/services.py lines
152-186); the chunker output and the `contextualize` text are abstracted as
inputs, since both come from the external docling library. -/
def chunkDoclingDocument (contextualize : RawChunk → String)
    (rawChunks : List RawChunk) : List ChunkWithPage :=
  rawChunks.map (fun ch =>
    { text := contextualize ch, page_number := firstProvPage ch.meta.doc_items })

/-- Modelled from the spec (section 3 invariant): `processed_at` is set iff
status is COMPLETED and `error_message` is set iff status is FAILED. Stated
from the words of the spec, to be compared with what `processDocument`
actually maintains. -/
def specStatusInvariant (d : DocumentRecord) : Prop :=
  (d.processedAt.isSome ↔ d.status = ProcessingStatus.COMPLETED) ∧
  (d.errorMessage.isSome ↔ d.status = ProcessingStatus.FAILED)

instance (d : DocumentRecord) : Decidable (specStatusInvariant d) := by
  unfold specStatusInvariant
  infer_instance

/-- A fresh PENDING document row as the upload view creates it
(src/documents/views.py lines 125-131). -/
def docFresh : DocumentRecord where
  docId := "d1"
  tenantId := "t1"
  originalFilePath := "t1/uploads/a.pdf"
  originalFilename := "a.pdf"
  pageCount := 0
  status := .PENDING
  metadata := []
  errorMessage := none
  processedAt := none

/-- World before processing `docFresh`: empty index, file present. -/
def worldFresh : WorldState where
  db := docFresh
  index := []
  fileExists := true

/-- An environment in which every fallible call succeeds. -/
def envOk : PipelineEnv where
  saveProcessingRes := .ok ()
  extractRes := .ok { markdownPath := "m.md", imageDirPath := "img", pages := 3, origin := none }
  fileSuffixLower := ".pdf"
  fileStatSize := 100
  chunkRes := .ok [{ text := "hello", page_number := some 1 }]
  embedRes := .ok [[1, 2]]
  vectorConnectRes := .ok ()
  saveCompletedRes := .ok ()
  now := 42

/-- Same as `envOk` except extraction raises. -/
def envExtractFail : PipelineEnv := { envOk with extractRes := Except.error "boom" }

/-- Same as `envOk` except the final `doc.save()` raises. -/
def envSaveCompletedFail : PipelineEnv :=
  { envOk with saveCompletedRes := Except.error "db down" }

/-- A document row already processed to COMPLETED. -/
def docCompleted : DocumentRecord where
  docId := "d2"
  tenantId := "t1"
  originalFilePath := "t1/uploads/b.pdf"
  originalFilename := "b.pdf"
  pageCount := 3
  status := .COMPLETED
  metadata := [("extension", ".pdf")]
  errorMessage := none
  processedAt := some 7

/-- World holding `docCompleted`. -/
def worldCompleted : WorldState where
  db := docCompleted
  index := []
  fileExists := true

/-- A document row whose previous processing attempt FAILED, its error
message retained. -/
def docFailedStale : DocumentRecord where
  docId := "d3"
  tenantId := "t1"
  originalFilePath := "t1/uploads/c.pdf"
  originalFilename := "c.pdf"
  pageCount := 0
  status := .FAILED
  metadata := []
  errorMessage := some "previous failure"
  processedAt := none

/-- World holding `docFailedStale`, with the file re-uploaded. -/
def worldFailedStale : WorldState where
  db := docFailedStale
  index := []
  fileExists := true

/-- A raw chunk whose first doc item has no provenance and whose second sits
on page 2. -/
def rawChunkA : RawChunk where
  meta := { doc_items := [{ prov := [] }, { prov := [{ page_no := 2 }] }] }

/-- With at least as many vectors as chunks, the loop of
`add_document_chunks` queues exactly the pairwise records, in chunk order. -/
theorem addChunkRecords_eq_zip (document : DocumentRecord) (chunks : List ChunkWithPage) :
    ∀ embeddings : List Vec, chunks.length ≤ embeddings.length →
      addChunkRecords document chunks embeddings =
        Except.ok ((chunks.zip embeddings).map (fun p => chunkRecord document p.1 p.2)) := by
  induction chunks with
  | nil => intro embeddings h; rfl
  | cons c cs ih =>
    intro embeddings h
    cases embeddings with
    | nil => simp at h
    | cons v vs =>
      have h2 : cs.length ≤ vs.length := by simpa using h
      simp [addChunkRecords, ih vs h2, Except.map]

/-- The loop of src/documents/services.py lines 174-180 returns the first
page provenance in `List.find?` form. -/
theorem firstProvPage_eq_find (items : List DocItem) :
    firstProvPage items =
      (items.find? (fun item => !item.prov.isEmpty)).bind
        (fun item => item.prov.head?.map Provenance.page_no) := by
  induction items with
  | nil => rfl
  | cons item rest ih =>
    cases hp : item.prov with
    | nil => simp [firstProvPage, hp, List.find?_cons, ih]
    | cons p ps => simp [firstProvPage, hp, List.find?_cons]

/-- Claim C1: when a pipeline stage (extraction, chunking, embedding, or the
vector-store write) raises, `process_document` leaves the document FAILED
with `error_message` equal to `str(e)`, the uploaded file deleted from
storage, and re-raises the same exception to the caller. -/
theorem c1_stage_failure_fails_document
    (env : PipelineEnv) (w : WorldState) (e : String)
    (hsp : env.saveProcessingRes = Except.ok ())
    (hfail :
      env.extractRes = Except.error e ∨
      ((∃ x, env.extractRes = Except.ok x) ∧ env.chunkRes = Except.error e) ∨
      ((∃ x, env.extractRes = Except.ok x) ∧ (∃ c, env.chunkRes = Except.ok c) ∧
        env.embedRes = Except.error e) ∨
      ((∃ x, env.extractRes = Except.ok x) ∧ (∃ c, env.chunkRes = Except.ok c) ∧
        (∃ v, env.embedRes = Except.ok v) ∧ env.vectorConnectRes = Except.error e)) :
    (processDocument env w).world.db.status = ProcessingStatus.FAILED ∧
    (processDocument env w).world.db.errorMessage = some e ∧
    (processDocument env w).world.fileExists = false ∧
    (processDocument env w).outcome = Except.error e := by
  rcases hfail with h | ⟨⟨x, hx⟩, h⟩ | ⟨⟨x, hx⟩, ⟨c, hc⟩, h⟩ |
      ⟨⟨x, hx⟩, ⟨c, hc⟩, ⟨v, hv⟩, h⟩ <;>
    refine ⟨?_, ?_, ?_, ?_⟩ <;>
    simp [processDocument, handleFailure, hsp, h, *]

/-- Witness for C1: a concrete run whose extraction raises. -/
theorem c1_witness :
    (processDocument envExtractFail worldFresh).world.db.status = ProcessingStatus.FAILED ∧
    (processDocument envExtractFail worldFresh).world.db.errorMessage = some "boom" ∧
    (processDocument envExtractFail worldFresh).world.fileExists = false ∧
    (processDocument envExtractFail worldFresh).outcome = Except.error "boom" :=
  c1_stage_failure_fails_document envExtractFail worldFresh "boom" rfl (Or.inl rfl)

/-- When the failure-path save succeeds, the refined model coincides with
`processDocument`: the latter is exactly the slice of the refined model on
which the except-block save of line 362 does not raise. -/
theorem processDocumentFallible_ok (env : PipelineEnv) (w : WorldState) :
    processDocumentFallible env (Except.ok ()) w = processDocument env w := by
  obtain ⟨sp, exr, sfx, sz, chr, emr, vcr, scr, nw⟩ := env
  cases sp with
  | error e => rfl
  | ok u =>
    cases exr with
    | error e => rfl
    | ok ex =>
      cases chr with
      | error e => rfl
      | ok chunks =>
        cases emr with
        | error e => rfl
        | ok embeddings =>
          cases vcr with
          | error e => rfl
          | ok u2 =>
            rcases hrec : addChunkRecords { w.db with status := ProcessingStatus.PROCESSING }
                chunks embeddings with e | recs
            · simp [processDocumentFallible, processDocument,
                handleFailureFallible, handleFailure, hrec]
            · cases scr with
              | error e2 =>
                simp [processDocumentFallible, processDocument,
                  handleFailureFallible, handleFailure, hrec]
              | ok u3 => rfl

/-- Claim C2 counterexample: with the PROCESSING transition persisted, the
extraction raising, and the failure-path `doc.save()` of line 362 itself
raising, the invocation returns by raising while the persisted status is
still PROCESSING — observable as PROCESSING after the invocation returns. -/
theorem c2_counterexample :
    (processDocumentFallible envExtractFail (Except.error "connection lost")
        worldFresh).world.db.status = ProcessingStatus.PROCESSING ∧
    (processDocumentFallible envExtractFail (Except.error "connection lost")
        worldFresh).outcome = Except.error "connection lost" :=
  ⟨rfl, rfl⟩

/-- Claim C2 amended: after the invocation returns the persisted status is
COMPLETED or FAILED provided the failure-path save of line 362 does not
itself raise; if that save raises, the invocation raises with the document
still persisted as PROCESSING (or PENDING when the initial save also
failed). Unconditionally, in any run that reaches a pipeline stage the very
first persisted transition is to PROCESSING, before any stage runs. -/
theorem c2_amended_terminal_unless_handler_save_fails
    (env : PipelineEnv) (sf : Except String Unit) (w : WorldState) :
    (sf = Except.ok () →
      ((processDocumentFallible env sf w).world.db.status = ProcessingStatus.COMPLETED ∨
       (processDocumentFallible env sf w).world.db.status = ProcessingStatus.FAILED)) ∧
    (∀ st : Stage, Event.stageRun st ∈ (processDocumentFallible env sf w).trace →
      (processDocumentFallible env sf w).trace.head? =
        some (Event.persistStatus ProcessingStatus.PROCESSING)) := by
  obtain ⟨sp, exr, sfx, sz, chr, emr, vcr, scr, nw⟩ := env
  cases sf with
  | error e0 =>
    refine ⟨fun h => absurd h (by simp), fun st hst => ?_⟩
    cases sp with
    | error e => simp [processDocumentFallible, handleFailureFallible] at hst
    | ok u =>
      cases exr with
      | error e => rfl
      | ok ex =>
        cases chr with
        | error e => rfl
        | ok chunks =>
          cases emr with
          | error e => rfl
          | ok embeddings =>
            cases vcr with
            | error e => rfl
            | ok u2 =>
              rcases hrec : addChunkRecords { w.db with status := ProcessingStatus.PROCESSING }
                  chunks embeddings with e | recs
              · simp [processDocumentFallible, handleFailureFallible, hrec]
              · cases scr with
                | error e2 => simp [processDocumentFallible, handleFailureFallible, hrec]
                | ok u3 => simp [processDocumentFallible, hrec]
  | ok u0 =>
    cases sp with
    | error e =>
      exact ⟨fun h => Or.inr rfl, fun st hst => by
        simp [processDocumentFallible, handleFailureFallible] at hst⟩
    | ok u =>
      cases exr with
      | error e => exact ⟨fun h => Or.inr rfl, fun st hst => rfl⟩
      | ok ex =>
        cases chr with
        | error e => exact ⟨fun h => Or.inr rfl, fun st hst => rfl⟩
        | ok chunks =>
          cases emr with
          | error e => exact ⟨fun h => Or.inr rfl, fun st hst => rfl⟩
          | ok embeddings =>
            cases vcr with
            | error e => exact ⟨fun h => Or.inr rfl, fun st hst => rfl⟩
            | ok u2 =>
              rcases hrec : addChunkRecords { w.db with status := ProcessingStatus.PROCESSING }
                  chunks embeddings with e | recs
              · refine ⟨fun h => Or.inr ?_, fun st hst => ?_⟩ <;>
                  simp [processDocumentFallible, handleFailureFallible, hrec]
              · cases scr with
                | error e2 =>
                  refine ⟨fun h => Or.inr ?_, fun st hst => ?_⟩ <;>
                    simp [processDocumentFallible, handleFailureFallible, hrec]
                | ok u3 =>
                  refine ⟨fun h => Or.inl ?_, fun st hst => ?_⟩ <;>
                    simp [processDocumentFallible, handleFailureFallible, hrec]

/-- Witness for the amended C2: a clean run ends in a terminal status and
its trace starts with the persisted PROCESSING transition. -/
theorem c2_amended_witness :
    ((processDocumentFallible envOk (Except.ok ()) worldFresh).world.db.status =
        ProcessingStatus.COMPLETED ∨
     (processDocumentFallible envOk (Except.ok ()) worldFresh).world.db.status =
        ProcessingStatus.FAILED) ∧
    (processDocumentFallible envOk (Except.ok ()) worldFresh).trace.head? =
      some (Event.persistStatus ProcessingStatus.PROCESSING) :=
  ⟨(c2_amended_terminal_unless_handler_save_fails envOk (Except.ok ()) worldFresh).1 rfl,
   (c2_amended_terminal_unless_handler_save_fails envOk (Except.ok ()) worldFresh).2
     Stage.extraction (by decide)⟩

/-- Claim C3 counterexample: with every pipeline stage succeeding and the
final COMPLETED save raising, the document ends FAILED while the records of
the already-performed batched index write remain in the index. -/
theorem c3_counterexample :
    (processDocument envSaveCompletedFail worldFresh).world.db.status = ProcessingStatus.FAILED ∧
    (processDocument envSaveCompletedFail worldFresh).world.index =
      [{ tenant_id := "t1", document_id := "d1", content := "hello",
         page_number := some 1, original_filename := "a.pdf", vector := [1, 2] }] :=
  ⟨rfl, rfl⟩

/-- Claim C3 amended: a failure in any pipeline stage — that is, any raise
occurring before the final status save (the final save itself succeeding) —
adds no records to the vector index; only a failure after the index write
(the final save raising) can leave records behind for a FAILED document. -/
theorem c3_amended_stage_failure_adds_no_records
    (env : PipelineEnv) (w : WorldState) (e : String)
    (hout : (processDocument env w).outcome = Except.error e)
    (hsc : env.saveCompletedRes = Except.ok ()) :
    (processDocument env w).world.index = w.index := by
  obtain ⟨sp, exr, sfx, sz, chr, emr, vcr, scr, nw⟩ := env
  cases sp with
  | error e2 => rfl
  | ok u =>
    cases exr with
    | error e2 => rfl
    | ok ex =>
      cases chr with
      | error e2 => rfl
      | ok chunks =>
        cases emr with
        | error e2 => rfl
        | ok embeddings =>
          cases vcr with
          | error e2 => rfl
          | ok u2 =>
            rcases hrec : addChunkRecords { w.db with status := ProcessingStatus.PROCESSING }
                chunks embeddings with e2 | recs
            · simp [processDocument, handleFailure, hrec]
            · cases scr with
              | error e2 => exact absurd hsc (by simp)
              | ok u3 =>
                exfalso
                simp [processDocument, hrec] at hout

/-- Witness for the amended C3: a failing extraction adds no records. -/
theorem c3_amended_witness :
    (processDocument envExtractFail worldFresh).world.index = worldFresh.index :=
  c3_amended_stage_failure_adds_no_records envExtractFail worldFresh "boom" rfl rfl

/-- Claim C4: with equally many chunks and vectors, `add_document_chunks`
queues exactly one record per chunk in its single batched write, the record
at position i carrying the tenant id, document id, the text and page number
of chunk i, the original filename, and vector i; consequently a run that
ends COMPLETED appends exactly one record per chunk to the index, in chunk
order. -/
theorem c4_batched_write_one_record_per_chunk
    (document : DocumentRecord) (chunks : List ChunkWithPage) (embeddings : List Vec)
    (h : chunks.length = embeddings.length) :
    addChunkRecords document chunks embeddings =
      Except.ok ((chunks.zip embeddings).map (fun p => chunkRecord document p.1 p.2)) ∧
    ((chunks.zip embeddings).map (fun p => chunkRecord document p.1 p.2)).length =
      chunks.length ∧
    (∀ (env : PipelineEnv) (w : WorldState),
      env.chunkRes = Except.ok chunks → env.embedRes = Except.ok embeddings →
      (processDocument env w).outcome = Except.ok () →
      (processDocument env w).world.index =
        w.index ++ (chunks.zip embeddings).map (fun p => chunkRecord w.db p.1 p.2)) := by
  refine ⟨addChunkRecords_eq_zip document chunks embeddings (le_of_eq h), ?_, ?_⟩
  · simp [List.length_zip, h]
  · intro env w hch hem hout
    obtain ⟨sp, exr, sfx, sz, chr, emr, vcr, scr, nw⟩ := env
    simp only at hch hem
    subst hch
    subst hem
    have hz := addChunkRecords_eq_zip { w.db with status := ProcessingStatus.PROCESSING }
      chunks embeddings (le_of_eq h)
    cases sp with
    | error e => simp [processDocument, handleFailure] at hout
    | ok u =>
      cases exr with
      | error e => simp [processDocument, handleFailure] at hout
      | ok ex =>
        cases vcr with
        | error e => simp [processDocument, handleFailure] at hout
        | ok u2 =>
          cases scr with
          | error e => simp [processDocument, handleFailure, hz] at hout
          | ok u3 =>
            simp [processDocument, handleFailure, hz]
            intro a b hab
            rfl

/-- Witness for C4: one chunk, one matching vector. -/
theorem c4_witness :
    addChunkRecords docFresh [{ text := "hello", page_number := some 1 }] [[1, 2]] =
      Except.ok (([({ text := "hello", page_number := some 1 } : ChunkWithPage)].zip
          [([1, 2] : Vec)]).map (fun p => chunkRecord docFresh p.1 p.2)) :=
  (c4_batched_write_one_record_per_chunk docFresh
    [{ text := "hello", page_number := some 1 }] [[1, 2]] (by decide)).1

/-- Claim C5 counterexample: `process_document` invoked on a COMPLETED
document with a failing extraction moves it to FAILED, so a status change
does leave a terminal state. -/
theorem c5_counterexample :
    worldCompleted.db.status = ProcessingStatus.COMPLETED ∧
    (processDocument envExtractFail worldCompleted).world.db.status =
      ProcessingStatus.FAILED :=
  ⟨rfl, rfl⟩

/-- Claim C5 amended: terminality of COMPLETED and FAILED is not enforced:
`process_document` never inspects the current status, so its entire run —
outcome, final state and trace — is independent of the initial status, and an
invocation on a terminal document re-runs the pipeline exactly as on a
PENDING one (within a single invocation, nothing follows the final terminal
transition). -/
theorem c5_amended_no_status_guard
    (env : PipelineEnv) (w : WorldState) (s : ProcessingStatus) :
    processDocument env { w with db := { w.db with status := s } } =
      processDocument env w := by
  obtain ⟨sp, exr, sfx, sz, chr, emr, vcr, scr, nw⟩ := env
  cases sp with
  | error e => rfl
  | ok u =>
    cases exr with
    | error e => rfl
    | ok ex =>
      cases chr with
      | error e => rfl
      | ok chunks =>
        cases emr with
        | error e => rfl
        | ok embeddings =>
          cases vcr with
          | error e => rfl
          | ok u2 => rfl

/-- Claim C6 counterexample: re-invoking the pipeline on a document whose
previous attempt FAILED, with every stage succeeding, ends COMPLETED but
keeps the stale error message, violating the spec invariant. -/
theorem c6_counterexample :
    ¬ specStatusInvariant (processDocument envOk worldFailedStale).world.db := by
  decide

/-- Claim C6 amended: the invariant (processed_at set iff COMPLETED,
error_message set iff FAILED) holds after `process_document` provided the
starting row has both fields unset (as a fresh PENDING document does) and the
final status save does not itself fail; it is not preserved from reachable
re-invocation states, since success never clears `error_message` and failure
never clears `processed_at`. -/
theorem c6_amended_invariant_from_unset_fields
    (env : PipelineEnv) (w : WorldState)
    (hpa : w.db.processedAt = none) (hem : w.db.errorMessage = none)
    (hsc : env.saveCompletedRes = Except.ok ()) :
    specStatusInvariant (processDocument env w).world.db := by
  obtain ⟨sp, exr, sfx, sz, chr, emr, vcr, scr, nw⟩ := env
  cases sp with
  | error e => simp [processDocument, handleFailure, specStatusInvariant, hpa]
  | ok u =>
    cases exr with
    | error e => simp [processDocument, handleFailure, specStatusInvariant, hpa]
    | ok ex =>
      cases chr with
      | error e => simp [processDocument, handleFailure, specStatusInvariant, hpa]
      | ok chunks =>
        cases emr with
        | error e => simp [processDocument, handleFailure, specStatusInvariant, hpa]
        | ok embeddings =>
          cases vcr with
          | error e => simp [processDocument, handleFailure, specStatusInvariant, hpa]
          | ok u2 =>
            rcases hrec : addChunkRecords { w.db with status := ProcessingStatus.PROCESSING }
                chunks embeddings with e | recs
            · simp [processDocument, handleFailure, specStatusInvariant, hrec]
              simp [hpa]
            · cases scr with
              | error e2 => exact absurd hsc (by simp)
              | ok u3 =>
                simp [processDocument, handleFailure, specStatusInvariant, hrec]
                simp [hem]

/-- Witness for the amended C6: a clean run from the fresh PENDING row. -/
theorem c6_amended_witness :
    specStatusInvariant (processDocument envOk worldFresh).world.db :=
  c6_amended_invariant_from_unset_fields envOk worldFresh rfl rfl rfl

/-- Claim C7 (code bug): when the collection already exists the method is a
raise-free no-op, but on a fresh store the create branch raises `NameError`
because `Configure` (and likewise `Property`, `DataType`) is referenced
without being bound — only `weaviate.classes as wvc` is imported — so schema
creation is not total and the collection is never created. -/
theorem c7_schema_create_raises_nameerror :
    createSchemaIfNotExists none =
      Except.error "NameError: name Configure is not defined" ∧
    ∀ s : CollectionSchema, createSchemaIfNotExists (some s) = Except.ok (some s) := by
  constructor
  · rfl
  · intro s
    rfl

/-- Claim C8: the chunk built for any raw chunk records as `page_number` the
`prov[0].page_no` of the first doc item of that raw chunk carrying nonempty
provenance, and `none` when no doc item of it carries provenance (the
`List.find?` form on the right is the literal reading of the spec sentence). -/
theorem c8_chunk_page_is_first_provenanced_item
    (contextualize : RawChunk → String) (rawChunks : List RawChunk)
    (i : Nat) (r : RawChunk) (c : ChunkWithPage)
    (hr : rawChunks[i]? = some r)
    (hc : (chunkDoclingDocument contextualize rawChunks)[i]? = some c) :
    c.page_number =
      (r.meta.doc_items.find? (fun item => !item.prov.isEmpty)).bind
        (fun item => item.prov.head?.map Provenance.page_no) := by
  have hmap : (chunkDoclingDocument contextualize rawChunks)[i]? =
      (rawChunks[i]?).map (fun ch =>
        ({ text := contextualize ch,
           page_number := firstProvPage ch.meta.doc_items } : ChunkWithPage)) := by
    simp [chunkDoclingDocument]
  rw [hmap, hr] at hc
  simp only [Option.map_some', Option.some.injEq] at hc
  subst hc
  exact firstProvPage_eq_find r.meta.doc_items

/-- Witness for C8: a chunk whose first doc item lacks provenance and whose
second sits on page 2 yields page number 2. -/
theorem c8_witness :
    ({ text := "txt", page_number := some 2 } : ChunkWithPage).page_number =
      (rawChunkA.meta.doc_items.find? (fun item => !item.prov.isEmpty)).bind
        (fun item => item.prov.head?.map Provenance.page_no) :=
  c8_chunk_page_is_first_provenanced_item (fun _ => "txt") [rawChunkA] 0 rawChunkA
    { text := "txt", page_number := some 2 } rfl rfl

/-- Claim C9: the vector-store connection is a scoped resource: from every
starting state the nested scopes of `process_document` around
`add_document_chunks` leave the client closed and reset; starting
disconnected, the connection is opened lazily exactly once, the single
batched write happens while it is open, the close happens on exit (the trace
is the same whether the batched write returns records or an error, i.e. on
error exits too), and re-entering the scope afterwards behaves identically. -/
theorem c9_connection_scope_resets
    (document : DocumentRecord) (chunks : List ChunkWithPage) (embeddings : List Vec) :
    (∀ s : Option Unit, (processVectorWrite document chunks embeddings s).2.1 = none) ∧
    (processVectorWrite document chunks embeddings none).2.2 =
      [ConnEvent.openConn, ConnEvent.batchWrite chunks.length, ConnEvent.closeConn] ∧
    processVectorWrite document chunks embeddings
        (processVectorWrite document chunks embeddings none).2.1 =
      processVectorWrite document chunks embeddings none := by
  refine ⟨fun s => ?_, rfl, rfl⟩
  cases s with
  | none => rfl
  | some u => rfl

/-- Claim C10 counterexample: when the final COMPLETED save raises, the
failure-path save persists the freshly assigned fields, so `processed_at`
and `page_count` do not keep their pre-invocation values. -/
theorem c10_counterexample :
    worldFresh.db.processedAt = none ∧
    worldFresh.db.pageCount = 0 ∧
    (processDocument envSaveCompletedFail worldFresh).outcome = Except.error "db down" ∧
    (processDocument envSaveCompletedFail worldFresh).world.db.processedAt = some 42 ∧
    (processDocument envSaveCompletedFail worldFresh).world.db.pageCount = 3 :=
  ⟨rfl, rfl, rfl, rfl, rfl⟩

/-- Claim C10 amended: on a failure path entered from a pipeline stage or the
initial save (any raise with the final save itself succeeding), page_count,
metadata and processed_at keep their pre-invocation values and the persisted
`original_file` field still holds the storage path of the now-deleted file;
only when the final save itself raises are the freshly assigned page_count,
metadata and processed_at persisted alongside FAILED. -/
theorem c10_amended_frame_preserved_on_stage_failure
    (env : PipelineEnv) (w : WorldState) (e : String)
    (hout : (processDocument env w).outcome = Except.error e)
    (hsc : env.saveCompletedRes = Except.ok ()) :
    (processDocument env w).world.db.pageCount = w.db.pageCount ∧
    (processDocument env w).world.db.metadata = w.db.metadata ∧
    (processDocument env w).world.db.processedAt = w.db.processedAt ∧
    (processDocument env w).world.db.originalFilePath = w.db.originalFilePath ∧
    (processDocument env w).world.fileExists = false := by
  obtain ⟨sp, exr, sfx, sz, chr, emr, vcr, scr, nw⟩ := env
  cases sp with
  | error e2 => exact ⟨rfl, rfl, rfl, rfl, rfl⟩
  | ok u =>
    cases exr with
    | error e2 => exact ⟨rfl, rfl, rfl, rfl, rfl⟩
    | ok ex =>
      cases chr with
      | error e2 => exact ⟨rfl, rfl, rfl, rfl, rfl⟩
      | ok chunks =>
        cases emr with
        | error e2 => exact ⟨rfl, rfl, rfl, rfl, rfl⟩
        | ok embeddings =>
          cases vcr with
          | error e2 => exact ⟨rfl, rfl, rfl, rfl, rfl⟩
          | ok u2 =>
            rcases hrec : addChunkRecords { w.db with status := ProcessingStatus.PROCESSING }
                chunks embeddings with e2 | recs
            · refine ⟨?_, ?_, ?_, ?_, ?_⟩ <;>
                simp [processDocument, handleFailure, hrec]
            · cases scr with
              | error e2 => exact absurd hsc (by simp)
              | ok u3 =>
                exfalso
                simp [processDocument, hrec] at hout

/-- Witness for the amended C10: a failing extraction leaves the frame
fields untouched and the file deleted. -/
theorem c10_amended_witness :
    (processDocument envExtractFail worldFresh).world.db.pageCount = worldFresh.db.pageCount ∧
    (processDocument envExtractFail worldFresh).world.db.metadata = worldFresh.db.metadata ∧
    (processDocument envExtractFail worldFresh).world.db.processedAt =
      worldFresh.db.processedAt ∧
    (processDocument envExtractFail worldFresh).world.db.originalFilePath =
      worldFresh.db.originalFilePath ∧
    (processDocument envExtractFail worldFresh).world.fileExists = false :=
  c10_amended_frame_preserved_on_stage_failure envExtractFail worldFresh "boom" rfl rfl

end DocQuery
